import Mathlib

/-!
Verification development for the bs-qt-ui repository (a PyQt BeautifulSoup
GUI scraper, `src/app.py` and `src/aio.py`).

The development shallowly embeds the pipeline logic of `app.py`:
the per-entity state of `EntityBox`, its fetch / extract / display /
transform-compilation methods, the `ScrollDisplay.set_text` renderer and the
`MainWindow` config load.  External libraries (the network, BeautifulSoup's
HTML parser, Python's `exec`, Qt rich-text conversion, `json.load`) are
modelled as oracle parameters collected in the `Oracles` structure; everything
written in `app.py` itself is translated directly.

Python regular expressions are modelled by a small regular-expression AST with
a Brzozowski-derivative matcher; the module-level pattern `URL_RE` is encoded
group by group from the literal in `app.py`.
-/

/-! ## Regular expressions (model of Python `re`)

`Re.cls` carries a character predicate, which lets us encode Python character
classes such as `\w`, `\S`, `\d` directly. -/

inductive Re where
  | empt : Re
  | eps : Re
  | cls (p : Char → Bool) : Re
  | cat (a b : Re) : Re
  | alt (a b : Re) : Re
  | star (r : Re) : Re

def Re.nullable : Re → Bool
  | .empt => false
  | .eps => true
  | .cls _ => false
  | .cat a b => a.nullable && b.nullable
  | .alt a b => a.nullable || b.nullable
  | .star _ => true

def Re.deriv : Re → Char → Re
  | .empt, _ => .empt
  | .eps, _ => .empt
  | .cls p, c => if p c then .eps else .empt
  | .cat a b, c =>
      if a.nullable then .alt (.cat (a.deriv c) b) (b.deriv c)
      else .cat (a.deriv c) b
  | .alt a b, c => .alt (a.deriv c) (b.deriv c)
  | .star r, c => .cat (r.deriv c) (.star r)

/-- Model of `re.match(pattern, s)` viewed as a boolean: does some prefix of
`s` (starting at position 0) match the pattern? -/
def reMatchStart : Re → List Char → Bool
  | r, [] => r.nullable
  | r, c :: cs => r.nullable || reMatchStart (r.deriv c) cs

/-- Model of `re.search(pattern, s)` viewed as a boolean: does a match start
at some position of `s`? -/
def reSearch : Re → List Char → Bool
  | r, [] => r.nullable
  | r, c :: cs => reMatchStart r (c :: cs) || reSearch r cs

def chrRe (c : Char) : Re := .cls (fun d => d = c)

def strRe (s : String) : Re :=
  s.data.foldr (fun c acc => .cat (chrRe c) acc) .eps

def plusRe (r : Re) : Re := .cat r (.star r)

def optRe (r : Re) : Re := .alt r .eps

/-! Character classes as Python defines them (restricted to ASCII, which is
all the claims exercise). -/

def pySpace (c : Char) : Bool :=
  c = ' ' || c = '\t' || c = '\n' || c = '\x0d' || c = '\x0b' || c = '\x0c'

def pyWord (c : Char) : Bool := c.isAlpha || c.isDigit || c = '_'

def pyNonSpace (c : Char) : Bool := !pySpace c

def pyDigit (c : Char) : Bool := c.isDigit

/-- Characters of the last class of `URL_RE` (word characters, the listed
punctuation, and the character range from `!` to `/`; in the Python pattern
the range is written with a hyphen between those two characters). -/
def urlPathChar (c : Char) : Bool :=
  pyWord c || c ∈ ['#', '!', ':', '.', '?', '+', '=', '&', '%', '@']
    || ('!' ≤ c && c ≤ '/')

/-- The module-level pattern `URL_RE` of `app.py`, encoded group by group:
scheme alternation `(ftp|http|https)`, the literal `://`, optional
credentials, at least one non-space character, an optional `:port`, and an
optional path group. -/
def URL_RE : Re :=
  .cat (.alt (strRe ("ftp")) (.alt (strRe ("http")) (strRe ("https"))))
    (.cat (strRe ("://"))
      (.cat (optRe (.cat (plusRe (.cls pyWord))
                     (.cat (optRe (chrRe ':'))
                       (.cat (.star (.cls pyWord)) (chrRe '@')))))
        (.cat (plusRe (.cls pyNonSpace))
          (.cat (optRe (.cat (chrRe ':') (plusRe (.cls pyDigit))))
            (optRe (.alt (chrRe '/')
                     (.cat (chrRe '/') (.cls urlPathChar))))))))

/-! ## Python string helpers (operating on `List Char`) -/

/-- Python `str.strip()`. -/
def pyStrip (l : List Char) : List Char :=
  ((l.dropWhile pySpace).reverse.dropWhile pySpace).reverse

/-- Python `needle in hay` (substring test). -/
def pySubstr : List Char → List Char → Bool
  | [], needle => needle.isEmpty
  | c :: cs, needle => needle.isPrefixOf (c :: cs) || pySubstr cs needle

/-- Python `hay.index(c)` for a single character, as an `Option` (Python
raises `ValueError` where this returns `none`). -/
def pyIndexChar : List Char → Char → Option Nat
  | [], _ => none
  | d :: ds, c => if d = c then some 0 else (pyIndexChar ds c).map (· + 1)

/-- Python slice `l[a:b]` for non-negative indices. -/
def pySlice (l : List Char) (a b : Nat) : List Char := (l.drop a).take (b - a)

def joinSep (sep : String) : List String → String
  | [] => ""
  | [x] => x
  | x :: y :: xs => x ++ sep ++ joinSep sep (y :: xs)

/-! ## The parsed document (model of the BeautifulSoup tree)

The tree is a mutual inductive so that all functions over it are structural
(and hence evaluate by `decide`/`rfl`).  Only the features `app.py` touches
are modelled: tag name, the multi-valued `class` attribute, children, and
text nodes. -/

mutual
inductive Node where
  | elem (name : String) (classes : List String) (children : NodeList) : Node
  | text (s : String) : Node

inductive NodeList where
  | nil : NodeList
  | cons (hd : Node) (tl : NodeList) : NodeList
end

def Node.name : Node → String
  | .elem n _ _ => n
  | .text _ => ""

mutual
/-- Model of Python `str(tag)`: the full serialized markup of an element. -/
def Node.serialize : Node → String
  | .text s => s
  | .elem n cls cs =>
      "<" ++ n
        ++ (match cls with
            | [] => ""
            | c :: rest => " class=\x22" ++ joinSep (" ") (c :: rest) ++ "\x22")
        ++ ">" ++ NodeList.serialize cs ++ "</" ++ n ++ ">"

def NodeList.serialize : NodeList → String
  | .nil => ""
  | .cons hd tl => Node.serialize hd ++ NodeList.serialize tl
end

mutual
/-- Model of `tag.text`: concatenated text of all descendant text nodes. -/
def Node.textContent : Node → String
  | .text s => s
  | .elem _ _ cs => NodeList.textContent cs

def NodeList.textContent : NodeList → String
  | .nil => ""
  | .cons hd tl => Node.textContent hd ++ NodeList.textContent tl
end

mutual
/-- Model of `soup.find_all()` order: all element tags in document
(pre-)order.  Text nodes are not tags and are not returned. -/
def Node.findAll : Node → List Node
  | .text _ => []
  | .elem n cls cs => Node.elem n cls cs :: NodeList.findAll cs

def NodeList.findAll : NodeList → List Node
  | .nil => []
  | .cons hd tl => Node.findAll hd ++ NodeList.findAll tl
end

mutual
/-- Model of `soup.prettify()`: an indented rendering of the tree.  The exact
formatting BeautifulSoup uses is irrelevant to every claim; what matters is
that it is a fixed function of the parsed tree. -/
def Node.pretty (ind : Nat) : Node → String
  | .text s => String.mk (List.replicate ind ' ') ++ s ++ "\n"
  | .elem n cls cs =>
      String.mk (List.replicate ind ' ') ++ "<" ++ n
        ++ (match cls with
            | [] => ""
            | c :: rest => " class=\x22" ++ joinSep (" ") (c :: rest) ++ "\x22")
        ++ ">\n" ++ NodeList.pretty (ind + 1) cs
        ++ String.mk (List.replicate ind ' ') ++ "</" ++ n ++ ">\n"

def NodeList.pretty (ind : Nat) : NodeList → String
  | .nil => ""
  | .cons hd tl => Node.pretty ind hd ++ NodeList.pretty ind tl
end

def prettify (soup : NodeList) : String := NodeList.pretty 0 soup

/-- `tag.get('class')` matching for `find_all(class_=re.compile(pat))`:
BeautifulSoup matches the compiled pattern (by `re.search`) against each
individual class value of the tag; tags without classes never match. -/
def classMatches (pat : Re) : Node → Bool
  | .elem _ classes _ => classes.any (fun c => reSearch pat c.data)
  | .text _ => false

/-! ## Compiled transforms and external-effect oracles

`PyFun` is the value of `self.func_transform`: either the fallback
`lambda x: x` installed by the `except` branch of
`get_from_input_and_set_transform`, or a function produced by `exec` on the
reconstructed source.  The behaviour of `exec` itself (whether the
reconstructed source compiles, and what the compiled function computes) is
external Python machinery and is supplied by the oracles. -/

inductive PyFun where
  | identity : PyFun
  | compiled (src : String) : PyFun
deriving DecidableEq

/-- Outcome of `requests.get` (via `aio.async_fetch`): either a raised
transport-level exception, whose `repr` text is carried, or a response with a
status code and body text. -/
inductive FetchResult where
  | transportError (msg : String) : FetchResult
  | response (code : Int) (body : String) : FetchResult

/-- The persisted per-entity configuration record, exactly the six keys
written by `EntityBox.to_config`. -/
structure Config where
  url : String
  filter : String
  is_with_css : Bool
  output_option : Nat
  is_with_transform : Bool
  transform : String

/-- External collaborators of the code under verification.
`fetch` models the network, `parse` models `BeautifulSoup(.., 'lxml')`,
`compileRe` models `re.compile` on the user filter (an `Except` whose error
carries the `repr` of the raised `re.error`), `execOk` tells whether `exec`
accepts a reconstructed transform source, `execApply` runs a compiled
transform (errors carry the `repr` of the raised exception, covering the
guarded call in `ScrollDisplay.set_text`), `toPlain` models Qt's
`document().toPlainText()` after rich-text `setText`, and
`configFile`/`jsonLoad` model `open('./config.json')` and `json.load`. -/
structure Oracles where
  fetch : String → FetchResult
  parse : String → NodeList
  compileRe : String → Except String Re
  execOk : String → Bool
  execApply : String → String → Except String String
  toPlain : String → String
  configFile : Option String
  jsonLoad : String → Option (List Config)

/-! ## ScrollDisplay -/

/-- State of a `ScrollDisplay` widget: the output option (0 = HTML,
1 = Clean, 2 = Raw), the transform installed by `set_transform`, the label
contents, and whether the label was last filled through rich-text `setText`
(option 0) rather than `setPlainText`. -/
structure Display where
  output_option : Nat
  func_transform : Option PyFun
  label : String
  viaSetText : Bool

/-- The character class of the pattern `'[\n| ]+'` used in
`ScrollDisplay.set_text`: newline, literal pipe (the `|` inside a character
class is not alternation), and space. -/
def cleanChar (c : Char) : Bool := c = '\n' || c = '|' || c = ' '

/-- Streaming translation of `re.sub('[\n| ]+', '\n', s)`: scanning left to
right, each maximal run of `cleanChar` characters (the leftmost-longest
matches of the pattern) is replaced by a single newline.  `inRun` records
whether the scanner is inside a run whose replacement has been emitted. -/
def cleanGo (inRun : Bool) : List Char → List Char
  | [] => []
  | c :: cs =>
      if cleanChar c then
        if inRun then cleanGo true cs else '\n' :: cleanGo true cs
      else c :: cleanGo false cs

def cleanSub (s : String) : String := String.mk (cleanGo false s.data)

/-- Model of calling `self.func_transform(x)` followed by
`setPlainText` on the result, inside the `try` of `set_text`. -/
def applyFun (o : Oracles) : PyFun → String → Except String String
  | .identity, x => .ok x
  | .compiled src, x => o.execApply src x

/-- The three `output_option` blocks of `ScrollDisplay.set_text`:
0 = `setText(html)` (rich text), 1 = Clean (parse, take the text, collapse
with `re.sub`), 2 = `setPlainText(html)`. -/
def renderPhase (o : Oracles) (d : Display) (html : String) : Display :=
  if d.output_option = 0 then { d with label := html, viaSetText := true }
  else if d.output_option = 1 then
    { d with label := cleanSub ((o.parse html).textContent),
             viaSetText := false }
  else if d.output_option = 2 then { d with label := html, viaSetText := false }
  else d

/-- The `With Transform` block of `ScrollDisplay.set_text`: if a transform is
installed, replace the label by the transform of the label's plain text, or
by the `repr` of the exception the guarded call raised. -/
def transformPhase (o : Oracles) (d : Display) : Display :=
  match d.func_transform with
  | none => d
  | some f =>
      let plain := if d.viaSetText then o.toPlain d.label else d.label
      match applyFun o f plain with
      | .ok t => { d with label := t, viaSetText := false }
      | .error msg => { d with label := msg, viaSetText := false }

/-- `ScrollDisplay.set_text`. -/
def Display.set_text (o : Oracles) (d : Display) (html : String) : Display :=
  transformPhase o (renderPhase o d html)

/-! ## EntityBox -/

/-- The fixed structural tag denylist `EntityBox.TAG_EXCLUDE`. -/
def TAG_EXCLUDE : List String :=
  [("script"), ("meta"), ("head"), ("noscript"), ("svg"), ("html"),
   ("aside"), ("main")]

/-- State of one `EntityBox`: the data attributes set in `__init__` plus the
widget state the pipeline reads or writes (input texts, button/row state,
signal connection of `input_transform.textChanged`).  `status_log` collects
the messages sent to the parent status bar, in order. -/
structure Entity where
  status_code : Int
  resp_raw : Option String
  resp_soup : Option NodeList
  resp_html_full : Option String
  resp_html : Option String
  is_with_css : Bool
  func_transform : Option PyFun
  is_with_transform : Bool
  input_url : String
  input_filter : String
  input_filter_enabled : Bool
  input_transform : String
  btn_fetch_text : String
  btn_transform_checked : Bool
  row4_visible : Bool
  transform_connected : Bool
  display : Display
  status_log : List String

/-- A freshly constructed `EntityBox` (its `__init__`). -/
def initEntity : Entity where
  status_code := -1
  resp_raw := none
  resp_soup := none
  resp_html_full := none
  resp_html := none
  is_with_css := true
  func_transform := none
  is_with_transform := false
  input_url := "https://"
  input_filter := ""
  input_filter_enabled := false
  input_transform := ""
  btn_fetch_text := "Fetch"
  btn_transform_checked := false
  row4_visible := false
  transform_connected := false
  display := { output_option := 0, func_transform := none, label := "",
               viaSetText := false }
  status_log := []

/-- `self.set_status(msg)` (delegated to the parent status bar). -/
def setStatus (e : Entity) (msg : String) : Entity :=
  { e with status_log := e.status_log ++ [msg] }

def urlInvalidMsg : String :=
  "The provided URL is invalid. It must starts with [ http(s):// ]."

def malformedMsg : String :=
  "Transformation must be a Python function starting with def f(x): and returns a value, input is malformed"

/-- The inner loop shared by both branches of `requests_extract`: walk the
candidate tags in order and, for those passing `keep`, append `str(tag)` to
the accumulator unless an identical serialization was already collected. -/
def repoLoop (keep : Node → Bool) : List Node → List String → List String
  | [], acc => acc
  | t :: ts, acc =>
      if keep t then
        if t.serialize ∈ acc then repoLoop keep ts acc
        else repoLoop keep ts (acc ++ [t.serialize])
      else repoLoop keep ts acc

/-- The `try` block of `requests_extract` for a non-empty filter, returning
the collected serializations, or the `repr` of the exception raised by
`re.compile` on an invalid pattern (the only raising operation).  In the CSS
branch the candidates are `soup.find_all(class_=re.compile(pat))`; in the
text branch all tags, kept when the filter occurs in their text. -/
def extractRepo (o : Oracles) (e : Entity) : Except String (List String) :=
  let soup := (e.resp_soup.getD .nil).findAll
  if e.is_with_css then
    match o.compileRe e.input_filter with
    | .error msg => .error msg
    | .ok pat =>
        .ok (repoLoop (fun t => !TAG_EXCLUDE.contains t.name)
              (soup.filter (classMatches pat)) [])
  else
    .ok (repoLoop
          (fun t => !TAG_EXCLUDE.contains t.name
            && pySubstr t.textContent.data e.input_filter.data)
          soup [])

/-- `EntityBox.requests_extract`. -/
def requests_extract (o : Oracles) (e : Entity) : Entity :=
  if e.status_code ≠ 200 then e
  else if e.input_filter.data.length = 0 then
    { e with resp_html := e.resp_html_full }
  else
    match extractRepo o e with
    | .error msg => { e with resp_html := some msg }
    | .ok repo => { e with resp_html := some (joinSep ("<br>\n") repo) }

/-- `EntityBox.send_to_display`. -/
def send_to_display (o : Oracles) (e : Entity) : Entity :=
  if e.status_code ≠ 200 then e
  else
    let e := requests_extract o e
    { e with display := e.display.set_text o (e.resp_html.getD ("")) }

/-- `EntityBox.get_from_input_and_set_transform`.  The whole body is wrapped
in `try`/`except Exception`; the raising operations are the three
`str.index` calls (`ValueError` when the character is absent) and `exec`
(when the oracle rejects the reconstructed source).  On any of them the
`except` branch reports the malformed message and installs `lambda x: x`.
Note that the shape check only reports a status message and does not stop
compilation.  `eid` stands for `id(self)` in the mangled name. -/
def get_from_input_and_set_transform (o : Oracles) (eid : Nat) (e : Entity) :
    Entity :=
  let fn := pyStrip e.input_transform.data
  let e1 :=
    if !(("def").data.isPrefixOf fn) || !pySubstr fn ("return").data then
      setStatus e malformedMsg
    else e
  match pyIndexChar fn '(', pyIndexChar fn ')', pyIndexChar fn '\n' with
  | some i, some j, some k =>
      let fnArgs := pySlice fn (i + 1) j
      let fnBody := fn.drop (k + 1)
      let recon := "def _F" ++ toString eid ++ "(" ++ String.mk fnArgs
        ++ "):\n" ++ String.mk fnBody
      if o.execOk recon then
        let e2 := { e1 with func_transform := some (.compiled recon) }
        -- set_display_transform
        let e2 := setStatus e2 ("Transform set and ready.")
        let e2 := { e2 with display :=
          { e2.display with func_transform := e2.func_transform } }
        send_to_display o e2
      else { setStatus e1 malformedMsg with func_transform := some .identity }
  | _, _, _ => { setStatus e1 malformedMsg with func_transform := some .identity }

/-- `EntityBox.enable_transform`. -/
def enable_transform (o : Oracles) (eid : Nat) (e : Entity) (enable : Bool) :
    Entity :=
  if enable then
    let e := { e with is_with_transform := true, row4_visible := true,
                      transform_connected := true }
    let e := get_from_input_and_set_transform o eid e
    setStatus e ("Transform enabled.")
  else
    let e := { e with is_with_transform := false, row4_visible := false,
                      transform_connected := false }
    -- unset_display_transform
    let e := { e with func_transform := none,
                      display := { e.display with func_transform := none } }
    setStatus e ("Transform disabled.")

/-- `EntityBox.requests_get`: validate the URL shape, fetch, and on a 200
response disable the transform, cache the parse results, and re-render. -/
def requests_get (o : Oracles) (eid : Nat) (e : Entity) : Entity :=
  if !reMatchStart URL_RE e.input_url.data then setStatus e urlInvalidMsg
  else
    match o.fetch e.input_url with
    | .transportError msg => setStatus e msg
    | .response code body =>
        if code = 200 then
          let e := enable_transform o eid e false
          let e := { e with status_code := code }
          let soup := o.parse body
          let e := { e with resp_raw := some body, resp_soup := some soup,
                            resp_html_full := some (prettify soup) }
          let e := { e with btn_fetch_text := "Re-fetch",
                            input_filter_enabled := true }
          let e := send_to_display o e
          setStatus e ("URL Fetch succeeded.")
        else setStatus e ("<Response [" ++ toString code ++ "]>")

/-- `EntityBox.to_config`: note that the `transform` key is the input text
only when a compiled transform is currently installed, and the empty string
otherwise. -/
def to_config (e : Entity) : Config where
  url := e.input_url
  filter := e.input_filter
  is_with_css := e.is_with_css
  output_option := e.display.output_option
  is_with_transform := e.is_with_transform
  transform := if e.func_transform.isSome then e.input_transform else ("")

/-- `EntityBox.from_config`.  Qt signal side effects are modelled where they
fire: `input_filter.setText` emits `textChanged` (connected to
`send_to_display` in `__init__`) when the text actually changes, and
`input_transform.setPlainText` triggers `get_from_input_and_set_transform`
when that connection has been made by `enable_transform(True)`.  The radio
`setChecked` calls emit no `clicked` signals and touch no modelled state. -/
def from_config (o : Oracles) (eid : Nat) (e : Entity) (cfg : Config) :
    Entity :=
  let e := { e with input_url := cfg.url }
  let e :=
    if cfg.filter ≠ e.input_filter then
      send_to_display o { e with input_filter := cfg.filter }
    else e
  let e := { e with is_with_css := cfg.is_with_css }
  let e := { e with display := { e.display with output_option := cfg.output_option } }
  let e := { e with is_with_transform := cfg.is_with_transform }
  let e := { e with input_transform := cfg.transform }
  let e :=
    if e.transform_connected then get_from_input_and_set_transform o eid e
    else e
  let e := requests_get o eid e
  if e.is_with_transform then
    enable_transform o eid { e with btn_transform_checked := true } true
  else e

/-! ## MainWindow -/

/-- The `MainWindow` state the claims need: the entity collection and the
status-bar message history. -/
structure MainState where
  entities : List Entity
  status_log : List String

def wSetStatus (m : MainState) (msg : String) : MainState :=
  { m with status_log := m.status_log ++ [msg] }

/-- `MainWindow.add_display`. -/
def add_display (m : MainState) : MainState :=
  wSetStatus { m with entities := m.entities ++ [initEntity] }
    "Added new widget"

/-- `MainWindow.rmv_display`. -/
def rmv_display (m : MainState) : MainState :=
  if m.entities.length ≠ 0 then
    wSetStatus { m with entities := m.entities.dropLast }
      "Removed bottom most widget"
  else wSetStatus m ("Cannot remove widget")

def rmvTimes : Nat → MainState → MainState
  | 0, m => m
  | n + 1, m => rmvTimes n (rmv_display m)

/-- `MainWindow.rmv_all_display`: `rmv_display` once per entity present. -/
def rmv_all_display (m : MainState) : MainState :=
  wSetStatus (rmvTimes m.entities.length m) ("Removed all widgets")

def corruptedMsg : String :=
  "config.json may be corrupted. Try recreating proper file with Save Config."

def notFoundMsg : String :=
  "config.json not found in current working directory. Check if file exists."

/-- `MainWindow.load_config`, with Python exception flow made explicit.
The outer `try` catches only `FileNotFoundError`.  When `json.load` raises,
the inner `except` reports `corruptedMsg` but does not return, so the
following `for key in cfg` reads the never-assigned local `cfg` and raises
`UnboundLocalError`, which no handler catches: the function aborts with an
error (carried together with the window state at the raise point). -/
def load_config (o : Oracles) (m : MainState) :
    Except (String × MainState) MainState :=
  let m := rmv_all_display m
  match o.configFile with
  | none =>
      .ok (wSetStatus (wSetStatus m notFoundMsg) ("Load config succeeded."))
  | some content =>
      match o.jsonLoad content with
      | none =>
          .error
            ("UnboundLocalError: local variable referenced before assignment",
             wSetStatus m corruptedMsg)
      | some cfgs =>
          let m := cfgs.foldl
            (fun m cfg =>
              let m := add_display m
              { m with entities :=
                  m.entities.dropLast
                    ++ [from_config o m.entities.length initEntity cfg] }) m
          .ok (wSetStatus m ("Load config succeeded."))

/-! ## Concrete instances used by witnesses -/

/-- A base oracle assignment for concrete evaluations: the network always
raises a connection error, the parser wraps the input in a single text node
(what BeautifulSoup's `.text` does to markup-free input), `re.compile`
produces the literal pattern, and `exec` rejects everything. -/
def oracleBase : Oracles where
  fetch := fun _ => .transportError ("ConnectionError()")
  parse := fun s => .cons (.text s) .nil
  compileRe := fun s => .ok (strRe s)
  execOk := fun _ => false
  execApply := fun _ _ => .error ("TypeError")
  toPlain := fun s => s
  configFile := none
  jsonLoad := fun _ => none

/-- A fetch attempt that does not produce the populated success state: either
the transport raised, or the response status is not 200. -/
def fetchFails : FetchResult → Prop
  | .transportError _ => True
  | .response code _ => code ≠ 200

/-- The fetch in `requests_get` reaches the 200 branch: the URL passes the
shape check and the oracle answers with status 200. -/
def fetch200 (o : Oracles) (url : String) : Prop :=
  reMatchStart URL_RE url.data = true
    ∧ ∃ body, o.fetch url = .response 200 body

/-- An entity in the populated success state (used as the concrete input of
the C3 counterexample). -/
def ePopulated : Entity :=
  { initEntity with
      input_url := "http://a", status_code := 200,
      resp_raw := some ("<p>old</p>"), resp_html := some ("old"),
      resp_html_full := some ("old") }

def oracle404 : Oracles :=
  { oracleBase with fetch := fun _ => .response 404 ("not found") }

def oracle200 : Oracles :=
  { oracleBase with fetch := fun _ => .response 200 ("<p>hi</p>") }

/-- An oracle whose config file exists but holds content `json.load`
rejects. -/
def oracleBadConfig : Oracles :=
  { oracleBase with configFile := some ("not json") }

/-- The freshly started main window (an empty collection; the one
`add_display` of `__init__` is irrelevant to the loader, which first removes
every entity). -/
def initMain : MainState := { entities := [], status_log := [] }

/-- Concrete entity whose transform source fails the textual shape check
(and whose compilation then raises at `fn.index('(')`). -/
def eC1 : Entity := { initEntity with input_transform := "x" }

/-- A display in Raw mode with the identity fallback installed, used to show
what the fallback renders. -/
def dIdentity : Display :=
  { output_option := 2, func_transform := some PyFun.identity, label := "",
    viaSetText := false }

/-- A display in Clean mode with no transform. -/
def dClean : Display :=
  { output_option := 1, func_transform := none, label := "",
    viaSetText := false }

/-- Collapse every maximal run of characters satisfying `p` to a single
newline, leaving all other characters unchanged — stated by looking one
character ahead to detect the end of a run (a deliberately different
recursion shape from the scanner `cleanGo`, so that their equivalence is a
meaningful theorem). -/
def collapseRunsBy (p : Char → Bool) : List Char → List Char
  | [] => []
  | c :: cs =>
      if p c then
        match cs with
        | [] => ['\n']
        | d :: _ =>
            if p d then collapseRunsBy p cs else '\n' :: collapseRunsBy p cs
      else c :: collapseRunsBy p cs

/-- The CLEAN_TEXT collapse exactly as the specification words it:
every run of whitespace/newline characters becomes a single newline and no
other character changes. -/
def cleanSpecWs (s : String) : String :=
  String.mk (collapseRunsBy pySpace s.data)

/-- Witness document and entity for the extraction claims: a `div` matched
twice identically, plus an `svg` tag carrying the same class. -/
def docW : NodeList :=
  .cons (.elem ("div") [("a")] (.cons (.text ("X")) .nil))
    (.cons (.elem ("svg") [("a")] .nil)
      (.cons (.elem ("div") [("a")] (.cons (.text ("X")) .nil)) .nil))

def eExtract : Entity :=
  { initEntity with
      status_code := 200, resp_soup := some docW, input_filter := "a" }

/-- Concrete entity for the C2 witness and counterexample: a disabled
transform with a non-empty source. -/
def eC2 : Entity :=
  { initEntity with
      input_url := "u", input_filter := "f",
      input_transform := "def f(x):\n\treturn x" }

/-- The entity produced by loading `cfg` into a fresh entity, before the
automatic fetch of `from_config` runs. -/
def cfgEntity (cfg : Config) : Entity :=
  { initEntity with
      input_url := cfg.url, input_filter := cfg.filter,
      is_with_css := cfg.is_with_css,
      display := { initEntity.display with
                     output_option := cfg.output_option },
      is_with_transform := cfg.is_with_transform,
      input_transform := cfg.transform }

/-! ## Frame lemmas

Each pipeline step is shown to be a record update of its input touching only
the fields it writes; every claim about preserved state reduces to these. -/

lemma renderPhase_eq (o : Oracles) (d : Display) (html : String) :
    ∃ l v, renderPhase o d html = { d with label := l, viaSetText := v } := by
  unfold renderPhase
  by_cases h0 : d.output_option = 0
  · rw [if_pos h0]; exact ⟨html, true, rfl⟩
  · rw [if_neg h0]
    by_cases h1 : d.output_option = 1
    · rw [if_pos h1]; exact ⟨_, _, rfl⟩
    · rw [if_neg h1]
      by_cases h2 : d.output_option = 2
      · rw [if_pos h2]; exact ⟨html, false, rfl⟩
      · rw [if_neg h2]; exact ⟨d.label, d.viaSetText, rfl⟩

lemma transformPhase_eq (o : Oracles) (d : Display) :
    ∃ l v, transformPhase o d = { d with label := l, viaSetText := v } := by
  obtain ⟨oo, ft, lb, vs⟩ := d
  cases ft with
  | none => exact ⟨lb, vs, rfl⟩
  | some f =>
      dsimp only [transformPhase]
      cases ha : applyFun o f (if vs = true then o.toPlain lb else lb) with
      | ok t => exact ⟨t, false, rfl⟩
      | error m => exact ⟨m, false, rfl⟩

lemma set_text_eq (o : Oracles) (d : Display) (html : String) :
    ∃ l v, d.set_text o html = { d with label := l, viaSetText := v } := by
  obtain ⟨l1, v1, h1⟩ := renderPhase_eq o d html
  obtain ⟨l2, v2, h2⟩ := transformPhase_eq o (renderPhase o d html)
  refine ⟨l2, v2, ?_⟩
  rw [Display.set_text, h2, h1]

lemma requests_extract_eq (o : Oracles) (e : Entity) :
    ∃ h, requests_extract o e = { e with resp_html := h } := by
  unfold requests_extract
  by_cases h1 : e.status_code ≠ 200
  · rw [if_pos h1]; exact ⟨e.resp_html, rfl⟩
  · rw [if_neg h1]
    by_cases h2 : e.input_filter.data.length = 0
    · rw [if_pos h2]; exact ⟨e.resp_html_full, rfl⟩
    · rw [if_neg h2]
      cases hx : extractRepo o e with
      | error m => exact ⟨some m, rfl⟩
      | ok repo => exact ⟨some (joinSep ("<br>\n") repo), rfl⟩

lemma send_to_display_eq (o : Oracles) (e : Entity) :
    ∃ h l v, send_to_display o e
      = { e with
            resp_html := h,
            display := { e.display with label := l, viaSetText := v } } := by
  unfold send_to_display
  by_cases hs : e.status_code ≠ 200
  · rw [if_pos hs]
    exact ⟨e.resp_html, e.display.label, e.display.viaSetText, rfl⟩
  · rw [if_neg hs]
    obtain ⟨h, hre⟩ := requests_extract_eq o e
    obtain ⟨l, v, hst⟩ := set_text_eq o e.display (h.getD (""))
    refine ⟨h, l, v, ?_⟩
    rw [hre]
    dsimp only
    rw [hst]

/-- Composition helper: `send_to_display` keeps a state inside the family of
record updates of `e` that touch only the transform, the extraction cache,
the status log and the display label. -/
lemma sendForm (o : Oracles) (e : Entity) (E : Entity)
    (hE : ∃ f df h l v sl, E
      = { e with
            func_transform := f,
            resp_html := h,
            status_log := sl,
            display := { e.display with
                           func_transform := df, label := l,
                           viaSetText := v } }) :
    ∃ f df h l v sl, send_to_display o E
      = { e with
            func_transform := f,
            resp_html := h,
            status_log := sl,
            display := { e.display with
                           func_transform := df, label := l,
                           viaSetText := v } } := by
  obtain ⟨f, df, h, l, v, sl, rfl⟩ := hE
  obtain ⟨h2, l2, v2, hsd⟩ := send_to_display_eq o
    { e with
        func_transform := f,
        resp_html := h,
        status_log := sl,
        display := { e.display with
                       func_transform := df, label := l, viaSetText := v } }
  rw [hsd]
  exact ⟨f, df, h2, l2, v2, sl, rfl⟩

lemma get_from_eq (o : Oracles) (eid : Nat) (e : Entity) :
    ∃ f df h l v sl, get_from_input_and_set_transform o eid e
      = { e with
            func_transform := f,
            resp_html := h,
            status_log := sl,
            display := { e.display with
                           func_transform := df, label := l,
                           viaSetText := v } } := by
  unfold get_from_input_and_set_transform
  dsimp only
  by_cases hsh : (!(("def").data.isPrefixOf (pyStrip e.input_transform.data))
      || !pySubstr (pyStrip e.input_transform.data) ("return").data) = true
    <;> [rw [if_pos hsh]; rw [if_neg hsh]] <;>
  · cases hp : pyIndexChar (pyStrip e.input_transform.data) '(' with
    | none => exact ⟨_, _, _, _, _, _, rfl⟩
    | some i =>
      cases hq : pyIndexChar (pyStrip e.input_transform.data) ')' with
      | none => exact ⟨_, _, _, _, _, _, rfl⟩
      | some j =>
        cases hr : pyIndexChar (pyStrip e.input_transform.data) '\n' with
        | none => exact ⟨_, _, _, _, _, _, rfl⟩
        | some k =>
          dsimp only
          by_cases hexec : o.execOk ("def _F" ++ toString eid ++ "("
            ++ String.mk (pySlice (pyStrip e.input_transform.data) (i + 1) j)
            ++ "):\n"
            ++ String.mk ((pyStrip e.input_transform.data).drop (k + 1))) = true
          · rw [if_pos hexec]
            refine sendForm o e _ ⟨_, _, _, _, _, _, rfl⟩
          · rw [if_neg hexec]
            exact ⟨_, _, _, _, _, _, rfl⟩

lemma enable_false_eq (o : Oracles) (eid : Nat) (e : Entity) :
    enable_transform o eid e false
      = setStatus
          { e with is_with_transform := false, row4_visible := false,
                   transform_connected := false, func_transform := none,
                   display := { e.display with func_transform := none } }
          "Transform disabled." := rfl

lemma enable_true_eq (o : Oracles) (eid : Nat) (e : Entity) :
    enable_transform o eid e true
      = setStatus
          (get_from_input_and_set_transform o eid
            { e with is_with_transform := true, row4_visible := true,
                     transform_connected := true })
          "Transform enabled." := rfl

lemma requests_get_invalid (o : Oracles) (eid : Nat) (e : Entity)
    (hu : reMatchStart URL_RE e.input_url.data = false) :
    requests_get o eid e = setStatus e urlInvalidMsg := by
  unfold requests_get
  rw [hu]
  rfl

lemma requests_get_transport (o : Oracles) (eid : Nat) (e : Entity)
    (m : String)
    (hu : reMatchStart URL_RE e.input_url.data = true)
    (hfe : o.fetch e.input_url = .transportError m) :
    requests_get o eid e = setStatus e m := by
  unfold requests_get
  rw [hu, if_neg (by decide : ¬((!true : Bool) = true)), hfe]

lemma requests_get_non200 (o : Oracles) (eid : Nat) (e : Entity)
    (code : Int) (body : String)
    (hu : reMatchStart URL_RE e.input_url.data = true)
    (hfe : o.fetch e.input_url = .response code body)
    (hc : code ≠ 200) :
    requests_get o eid e
      = setStatus e ("<Response [" ++ toString code ++ "]>") := by
  unfold requests_get
  rw [hu, if_neg (by decide : ¬((!true : Bool) = true)), hfe]
  dsimp only
  rw [if_neg hc]

lemma requests_get_200 (o : Oracles) (eid : Nat) (e : Entity) (body : String)
    (hu : reMatchStart URL_RE e.input_url.data = true)
    (hfe : o.fetch e.input_url = .response 200 body) :
    requests_get o eid e
      = setStatus
          (send_to_display o
            { enable_transform o eid e false with
                status_code := 200,
                resp_raw := some body,
                resp_soup := some (o.parse body),
                resp_html_full := some (prettify (o.parse body)),
                btn_fetch_text := "Re-fetch",
                input_filter_enabled := true })
          "URL Fetch succeeded." := by
  unfold requests_get
  rw [hu, if_neg (by decide : ¬((!true : Bool) = true)), hfe]
  dsimp only
  rw [if_pos rfl]

/-! Projection corollaries of the frame lemmas. -/

lemma send_proj (o : Oracles) (e : Entity) :
    (send_to_display o e).is_with_transform = e.is_with_transform
      ∧ (send_to_display o e).func_transform = e.func_transform
      ∧ (send_to_display o e).row4_visible = e.row4_visible
      ∧ (send_to_display o e).display.func_transform
          = e.display.func_transform
      ∧ (send_to_display o e).input_url = e.input_url
      ∧ (send_to_display o e).input_filter = e.input_filter
      ∧ (send_to_display o e).is_with_css = e.is_with_css
      ∧ (send_to_display o e).display.output_option
          = e.display.output_option
      ∧ (send_to_display o e).input_transform = e.input_transform
      ∧ (send_to_display o e).resp_html_full = e.resp_html_full
      ∧ (send_to_display o e).transform_connected = e.transform_connected
      ∧ (send_to_display o e).status_code = e.status_code := by
  obtain ⟨h, l, v, hsd⟩ := send_to_display_eq o e
  rw [hsd]
  exact ⟨rfl, rfl, rfl, rfl, rfl, rfl, rfl, rfl, rfl, rfl, rfl, rfl⟩

lemma get_from_proj (o : Oracles) (eid : Nat) (e : Entity) :
    (get_from_input_and_set_transform o eid e).is_with_transform
        = e.is_with_transform
      ∧ (get_from_input_and_set_transform o eid e).input_url = e.input_url
      ∧ (get_from_input_and_set_transform o eid e).input_filter
          = e.input_filter
      ∧ (get_from_input_and_set_transform o eid e).is_with_css
          = e.is_with_css
      ∧ (get_from_input_and_set_transform o eid e).display.output_option
          = e.display.output_option
      ∧ (get_from_input_and_set_transform o eid e).input_transform
          = e.input_transform
      ∧ (get_from_input_and_set_transform o eid e).row4_visible
          = e.row4_visible := by
  obtain ⟨f, df, h, l, v, sl, hg⟩ := get_from_eq o eid e
  rw [hg]
  exact ⟨rfl, rfl, rfl, rfl, rfl, rfl, rfl⟩

/-- C4: for every url string rejected by the URL-shape pattern,
`requests_get` only emits the invalid-URL status message: the entity's cached
state (status code, raw document, parsed tree, extracted fragment, rendered
full document) is unchanged, and since the result does not depend on the
`Oracles` (which contain the network), no network access is performed. -/
theorem c4_invalid_url_no_fetch (o : Oracles) (eid : Nat) (e : Entity)
    (hu : reMatchStart URL_RE e.input_url.data = false) :
    requests_get o eid e = setStatus e urlInvalidMsg
      ∧ (requests_get o eid e).status_code = e.status_code
      ∧ (requests_get o eid e).resp_raw = e.resp_raw
      ∧ (requests_get o eid e).resp_soup = e.resp_soup
      ∧ (requests_get o eid e).resp_html_full = e.resp_html_full
      ∧ (requests_get o eid e).resp_html = e.resp_html := by
  have h1 := requests_get_invalid o eid e hu
  exact ⟨h1, by rw [h1]; rfl, by rw [h1]; rfl, by rw [h1]; rfl,
    by rw [h1]; rfl, by rw [h1]; rfl⟩

/-- Witness for C4 at the concrete freshly initialized entity, whose URL text
is `https://` (no host follows the scheme, so the pattern rejects it). -/
theorem c4_witness :
    reMatchStart URL_RE ("https://").data = false
      ∧ requests_get oracleBase 1 initEntity
          = setStatus initEntity urlInvalidMsg :=
  ⟨by decide, (c4_invalid_url_no_fetch oracleBase 1 initEntity (by decide)).1⟩

/-- C3 counterexample: the claim says a failing fetch resets the derived
fields to unset.  On the concrete populated entity `ePopulated`, a fetch
answered with status 404 leaves `status_code = 200` and the old raw document
and extracted fragment in place — nothing is reset. -/
theorem c3_counterexample :
    (requests_get oracle404 1 ePopulated).status_code = 200
      ∧ (requests_get oracle404 1 ePopulated).resp_raw = some ("<p>old</p>")
      ∧ (requests_get oracle404 1 ePopulated).resp_html = some ("old") := by
  refine ⟨?_, ?_, ?_⟩ <;> decide

/-- C3 (amended): a fetch invocation that fails (transport error or non-200
status) leaves the entity completely unchanged except for appending one
status message; in particular all derived/cached fields and the
configuration keep their previous values (they are not reset to unset). -/
theorem c3_failed_fetch_state_unchanged (o : Oracles) (eid : Nat) (e : Entity)
    (hf : fetchFails (o.fetch e.input_url)) :
    ∃ msg, requests_get o eid e = setStatus e msg := by
  cases hu : reMatchStart URL_RE e.input_url.data with
  | false => exact ⟨urlInvalidMsg, requests_get_invalid o eid e hu⟩
  | true =>
      cases hfe : o.fetch e.input_url with
      | transportError m => exact ⟨m, requests_get_transport o eid e m hu hfe⟩
      | response code body =>
          rw [hfe] at hf
          exact ⟨"<Response [" ++ toString code ++ "]>",
            requests_get_non200 o eid e code body hu hfe hf⟩

/-- Witness for C3 (amended) at a concrete populated entity and a 404
response. -/
theorem c3_witness :
    ∃ msg, requests_get oracle404 1 ePopulated = setStatus ePopulated msg :=
  c3_failed_fetch_state_unchanged oracle404 1 ePopulated
    (show (404 : Int) ≠ 200 by decide)

/-- C10: every fetch that completes with status 200 disables the transform
before rendering: `is_with_transform` becomes false, the compiled transform
is discarded on the entity and on the display, and the transform input row
is hidden — so the freshly fetched content is rendered with no transform
installed. -/
theorem c10_fetch_success_disables_transform (o : Oracles) (eid : Nat)
    (e : Entity) (body : String)
    (hu : reMatchStart URL_RE e.input_url.data = true)
    (hfe : o.fetch e.input_url = .response 200 body) :
    (requests_get o eid e).is_with_transform = false
      ∧ (requests_get o eid e).func_transform = none
      ∧ (requests_get o eid e).row4_visible = false
      ∧ (requests_get o eid e).display.func_transform = none := by
  rw [requests_get_200 o eid e body hu hfe]
  have hs := send_proj o
    { enable_transform o eid e false with
        status_code := 200,
        resp_raw := some body,
        resp_soup := some (o.parse body),
        resp_html_full := some (prettify (o.parse body)),
        btn_fetch_text := "Re-fetch",
        input_filter_enabled := true }
  refine ⟨?_, ?_, ?_, ?_⟩
  · rw [show ∀ x : Entity, (setStatus x ("URL Fetch succeeded.")).is_with_transform
      = x.is_with_transform from fun _ => rfl, hs.1]
    rw [show (enable_transform o eid e false).is_with_transform = false from
      by rw [enable_false_eq]; rfl]
  · rw [show ∀ x : Entity, (setStatus x ("URL Fetch succeeded.")).func_transform
      = x.func_transform from fun _ => rfl, hs.2.1]
    rw [show (enable_transform o eid e false).func_transform = none from
      by rw [enable_false_eq]; rfl]
  · rw [show ∀ x : Entity, (setStatus x ("URL Fetch succeeded.")).row4_visible
      = x.row4_visible from fun _ => rfl, hs.2.2.1]
    rw [show (enable_transform o eid e false).row4_visible = false from
      by rw [enable_false_eq]; rfl]
  · rw [show ∀ x : Entity, (setStatus x ("URL Fetch succeeded.")).display
      = x.display from fun _ => rfl, hs.2.2.2.1]
    rw [show (enable_transform o eid e false).display.func_transform = none from
      by rw [enable_false_eq]; rfl]

/-- Witness for C10: a concrete entity with an enabled, compiled transform
fetched through an oracle answering 200. -/
theorem c10_witness :
    (requests_get oracle200 1
      { initEntity with
          input_url := "http://a", is_with_transform := true,
          row4_visible := true,
          func_transform := some (.compiled ("def _F1(x):\n\treturn x")),
          display := { initEntity.display with
                         func_transform := some (.compiled
                           ("def _F1(x):\n\treturn x")) } }).is_with_transform
      = false :=
  (c10_fetch_success_disables_transform oracle200 1
    { initEntity with
        input_url := "http://a", is_with_transform := true,
        row4_visible := true,
        func_transform := some (.compiled ("def _F1(x):\n\treturn x")),
        display := { initEntity.display with
                       func_transform := some (.compiled
                         ("def _F1(x):\n\treturn x")) } }
    ("<p>hi</p>") (by decide) (by rfl)).1

lemma setStatus_resp_html (e : Entity) (m : String) :
    (setStatus e m).resp_html = e.resp_html := rfl

lemma setStatus_resp_html_full (e : Entity) (m : String) :
    (setStatus e m).resp_html_full = e.resp_html_full := rfl

/-- With a 200 status and an empty filter, `send_to_display` caches the full
prettified document as the extracted fragment. -/
lemma send_resp_html_of_empty (o : Oracles) (e : Entity)
    (h200 : e.status_code = 200) (hfil : e.input_filter = "") :
    (send_to_display o e).resp_html = e.resp_html_full := by
  unfold send_to_display
  rw [if_neg (show ¬(e.status_code ≠ 200) from fun hh => hh h200)]
  dsimp only
  unfold requests_extract
  rw [if_neg (show ¬(e.status_code ≠ 200) from fun hh => hh h200)]
  rw [if_pos (show e.input_filter.data.length = 0 from by rw [hfil]; rfl)]

/-- C7: for every fetch that completes with status 200 on an entity whose
filter pattern is empty, the cached extracted fragment after `requests_get`
is the prettified full parsed document (and so is the cached
`resp_html_full`), for both filter modes, since the mode is never consulted
on the empty-filter path. -/
theorem c7_empty_filter_full_document (o : Oracles) (eid : Nat) (e : Entity)
    (body : String)
    (hu : reMatchStart URL_RE e.input_url.data = true)
    (hfe : o.fetch e.input_url = .response 200 body)
    (hfil : e.input_filter = "") :
    (requests_get o eid e).resp_html = some (prettify (o.parse body))
      ∧ (requests_get o eid e).resp_html_full
          = some (prettify (o.parse body)) := by
  rw [requests_get_200 o eid e body hu hfe]
  constructor
  · rw [setStatus_resp_html, send_resp_html_of_empty]
    · rfl
    · rw [enable_false_eq]; exact hfil
  · rw [setStatus_resp_html_full, (send_proj o _).2.2.2.2.2.2.2.2.2.1]

/-- Witness for C7 at a concrete entity with empty filter and an oracle
answering 200. -/
theorem c7_witness :
    (requests_get oracle200 1
        { initEntity with input_url := "http://a" }).resp_html
      = some (prettify (oracle200.parse ("<p>hi</p>"))) :=
  (c7_empty_filter_full_document oracle200 1
    { initEntity with input_url := "http://a" } ("<p>hi</p>")
    (by decide) (by rfl) (by rfl)).1

/-! ## Extraction loop lemmas (for C5 and C6) -/

lemma repoLoop_mem (keep : Node → Bool) :
    ∀ (ts : List Node) (acc : List String) (s : String),
      s ∈ repoLoop keep ts acc →
      s ∈ acc ∨ ∃ t, t ∈ ts ∧ keep t = true ∧ s = t.serialize := by
  intro ts
  induction ts with
  | nil => intro acc s hs; exact .inl hs
  | cons t ts ih =>
      intro acc s hs
      unfold repoLoop at hs
      by_cases hk : keep t = true
      · rw [if_pos hk] at hs
        by_cases hm : t.serialize ∈ acc
        · rw [if_pos hm] at hs
          rcases ih acc s hs with h | ⟨u, hu1, hu2, hu3⟩
          · exact .inl h
          · exact .inr ⟨u, List.mem_cons_of_mem _ hu1, hu2, hu3⟩
        · rw [if_neg hm] at hs
          rcases ih (acc ++ [t.serialize]) s hs with h | ⟨u, hu1, hu2, hu3⟩
          · rcases List.mem_append.mp h with h | h
            · exact .inl h
            · exact .inr ⟨t, List.mem_cons_self t ts, hk,
                List.mem_singleton.mp h⟩
          · exact .inr ⟨u, List.mem_cons_of_mem _ hu1, hu2, hu3⟩
      · rw [if_neg hk] at hs
        rcases ih acc s hs with h | ⟨u, hu1, hu2, hu3⟩
        · exact .inl h
        · exact .inr ⟨u, List.mem_cons_of_mem _ hu1, hu2, hu3⟩

lemma repoLoop_nodup (keep : Node → Bool) :
    ∀ (ts : List Node) (acc : List String), acc.Nodup →
      (repoLoop keep ts acc).Nodup := by
  intro ts
  induction ts with
  | nil => intro acc h; exact h
  | cons t ts ih =>
      intro acc hacc
      unfold repoLoop
      by_cases hk : keep t = true
      · rw [if_pos hk]
        by_cases hm : t.serialize ∈ acc
        · rw [if_pos hm]; exact ih acc hacc
        · rw [if_neg hm]
          refine ih _ ?_
          rw [List.nodup_append]
          exact ⟨hacc, List.nodup_singleton _,
            fun a ha hb => hm (by rwa [List.mem_singleton.mp hb] at ha)⟩
      · rw [if_neg hk]; exact ih acc hacc

lemma repoLoop_sublist (keep : Node → Bool) :
    ∀ (ts : List Node) (acc : List String),
      ∃ rest, repoLoop keep ts acc = acc ++ rest
        ∧ rest.Sublist ((ts.filter keep).map Node.serialize) := by
  intro ts
  induction ts with
  | nil => intro acc; exact ⟨[], by simp [repoLoop], List.nil_sublist _⟩
  | cons t ts ih =>
      intro acc
      unfold repoLoop
      by_cases hk : keep t = true
      · rw [if_pos hk]
        by_cases hm : t.serialize ∈ acc
        · rw [if_pos hm]
          obtain ⟨rest, h1, h2⟩ := ih acc
          refine ⟨rest, h1, ?_⟩
          rw [List.filter_cons_of_pos hk]
          exact h2.cons _
        · rw [if_neg hm]
          obtain ⟨rest, h1, h2⟩ := ih (acc ++ [t.serialize])
          refine ⟨t.serialize :: rest, by rw [h1, List.append_assoc]; rfl, ?_⟩
          rw [List.filter_cons_of_pos hk]
          exact h2.cons₂ _
      · rw [if_neg hk]
        obtain ⟨rest, h1, h2⟩ := ih acc
        refine ⟨rest, h1, ?_⟩
        rw [List.filter_cons_of_neg hk]
        exact h2

/-- C5: with a 200 status and a non-empty filter, in both modes, every
serialized element collected by the extraction loop comes from a tag of the
parsed document whose name is not in the structural denylist. -/
theorem c5_denylist_excluded (o : Oracles) (e : Entity) (l : List String)
    (h200 : e.status_code = 200)
    (hfil : e.input_filter.data.length ≠ 0)
    (hx : extractRepo o e = .ok l) :
    ∀ s ∈ l, ∃ t, t ∈ (e.resp_soup.getD .nil).findAll
      ∧ TAG_EXCLUDE.contains t.name = false ∧ s = t.serialize := by
  intro s hs
  unfold extractRepo at hx
  by_cases hcss : e.is_with_css = true
  · rw [if_pos hcss] at hx
    cases hre : o.compileRe e.input_filter with
    | error m => rw [hre] at hx; cases hx
    | ok pat =>
        rw [hre] at hx
        injection hx with hx
        rw [← hx] at hs
        rcases repoLoop_mem _ _ _ _ hs with h | ⟨t, ht1, ht2, ht3⟩
        · cases h
        · refine ⟨t, List.mem_of_mem_filter ht1, ?_, ht3⟩
          rwa [Bool.not_eq_eq_eq_not, Bool.not_true] at ht2
  · rw [if_neg hcss] at hx
    injection hx with hx
    rw [← hx] at hs
    rcases repoLoop_mem _ _ _ _ hs with h | ⟨t, ht1, ht2, ht3⟩
    · cases h
    · refine ⟨t, ht1, ?_, ht3⟩
      have := (Bool.and_eq_true _ _).mp ht2
      rcases this with ⟨h1, _⟩
      rwa [Bool.not_eq_eq_eq_not, Bool.not_true] at h1

/-- Witness for C5 at the concrete document `docW`. -/
theorem c5_witness :
    ∃ t, t ∈ (eExtract.resp_soup.getD .nil).findAll
      ∧ TAG_EXCLUDE.contains t.name = false
      ∧ "<div class=\x22a\x22>X</div>" = t.serialize :=
  c5_denylist_excluded oracleBase eExtract
    (["<div class=\x22a\x22>X</div>"]) (by rfl) (by decide) (by rfl)
    ("<div class=\x22a\x22>X</div>") (List.mem_singleton.mpr rfl)

/-- C6: with a 200 status and a non-empty filter, in both modes, the
collected serializations contain no duplicates and form a subsequence of the
document-order serializations of all tags, and `requests_extract` caches
exactly their `<br>`-joined concatenation. -/
theorem c6_dedup_document_order (o : Oracles) (e : Entity) (l : List String)
    (h200 : e.status_code = 200)
    (hfil : e.input_filter.data.length ≠ 0)
    (hx : extractRepo o e = .ok l) :
    l.Nodup
      ∧ l.Sublist (((e.resp_soup.getD .nil).findAll).map Node.serialize)
      ∧ (requests_extract o e).resp_html = some (joinSep ("<br>\n") l) := by
  have hmain : l.Nodup
      ∧ l.Sublist (((e.resp_soup.getD .nil).findAll).map Node.serialize) := by
    unfold extractRepo at hx
    by_cases hcss : e.is_with_css = true
    · rw [if_pos hcss] at hx
      cases hre : o.compileRe e.input_filter with
      | error m => rw [hre] at hx; cases hx
      | ok pat =>
          rw [hre] at hx
          injection hx with hx
          constructor
          · rw [← hx]; exact repoLoop_nodup _ _ _ (List.nodup_nil)
          · obtain ⟨rest, h1, h2⟩ := repoLoop_sublist
              (fun t => !TAG_EXCLUDE.contains t.name)
              (((e.resp_soup.getD .nil).findAll).filter (classMatches pat)) []
            rw [← hx, h1, List.nil_append]
            exact h2.trans ((List.filter_sublist _).map _ |>.trans
              ((List.filter_sublist _).map _))
    · rw [if_neg hcss] at hx
      injection hx with hx
      constructor
      · rw [← hx]; exact repoLoop_nodup _ _ _ (List.nodup_nil)
      · obtain ⟨rest, h1, h2⟩ := repoLoop_sublist
          (fun t => !TAG_EXCLUDE.contains t.name
            && pySubstr t.textContent.data e.input_filter.data)
          ((e.resp_soup.getD .nil).findAll) []
        rw [← hx, h1, List.nil_append]
        exact h2.trans ((List.filter_sublist _).map _)
  refine ⟨hmain.1, hmain.2, ?_⟩
  unfold requests_extract
  rw [if_neg (show ¬(e.status_code ≠ 200) from fun hh => hh h200),
    if_neg hfil, hx]

/-- Witness for C6 at the concrete document `docW`: the duplicate `div` is
collected once, the `svg` never. -/
theorem c6_witness :
    (["<div class=\x22a\x22>X</div>"] : List String).Nodup
      ∧ List.Sublist (["<div class=\x22a\x22>X</div>"])
          (((eExtract.resp_soup.getD .nil).findAll).map Node.serialize)
      ∧ (requests_extract oracleBase eExtract).resp_html
          = some (joinSep ("<br>\n") (["<div class=\x22a\x22>X</div>"])) :=
  c6_dedup_document_order oracleBase eExtract
    (["<div class=\x22a\x22>X</div>"]) (by rfl) (by decide) (by rfl)

/-! ## C9: the config loader on a malformed file -/

/-- C9: the claim says loading never raises past the loader.  Evaluating
`load_config` at a present-but-malformed `config.json` shows the code
reporting the corruption message and then aborting with the
`UnboundLocalError` raised by `for key in cfg` (the inner `except` does not
return, and `cfg` was never assigned), which no handler catches — the
exception escapes the loader. -/
theorem c9_malformed_config_raises :
    load_config oracleBadConfig initMain
      = .error
          ("UnboundLocalError: local variable referenced before assignment",
           wSetStatus (rmv_all_display initMain) corruptedMsg) := rfl

/-! ## C1: transform compilation on shape-check failures -/

lemma send_status_log (o : Oracles) (e : Entity) :
    (send_to_display o e).status_log = e.status_log := by
  obtain ⟨h, l, v, hsd⟩ := send_to_display_eq o e
  rw [hsd]

/-- C1 (amended): for every transform source that, after trimming, does not
begin with `def` or does not contain `return`, compilation reports the
malformed-transform status message but does not fail fast: it continues, and
either some step raises and the caught exception leaves the identity
pass-through `lambda x: x` installed, or the reconstructed source still
compiles and a real transform is installed.  (The embedding is a total
function because every raising operation of the Python body is inside the
`try`/`except` — nothing escapes the compile step.) -/
theorem c1_malformed_source_compile (o : Oracles) (eid : Nat) (e : Entity)
    (hsh : (!(("def").data.isPrefixOf (pyStrip e.input_transform.data))
        || !pySubstr (pyStrip e.input_transform.data) ("return").data)
        = true) :
    malformedMsg ∈ (get_from_input_and_set_transform o eid e).status_log
      ∧ ((get_from_input_and_set_transform o eid e).func_transform
            = some PyFun.identity
          ∨ ∃ src, (get_from_input_and_set_transform o eid e).func_transform
              = some (PyFun.compiled src)) := by
  unfold get_from_input_and_set_transform
  dsimp only
  rw [if_pos hsh]
  cases hp : pyIndexChar (pyStrip e.input_transform.data) '(' with
  | none => exact ⟨by simp [setStatus], .inl rfl⟩
  | some i =>
    cases hq : pyIndexChar (pyStrip e.input_transform.data) ')' with
    | none => exact ⟨by simp [setStatus], .inl rfl⟩
    | some j =>
      cases hr : pyIndexChar (pyStrip e.input_transform.data) '\n' with
      | none => exact ⟨by simp [setStatus], .inl rfl⟩
      | some k =>
        dsimp only
        by_cases hexec : o.execOk ("def _F" ++ toString eid ++ "("
          ++ String.mk (pySlice (pyStrip e.input_transform.data) (i + 1) j)
          ++ "):\n"
          ++ String.mk ((pyStrip e.input_transform.data).drop (k + 1))) = true
        · rw [if_pos hexec]
          constructor
          · rw [send_status_log]
            simp [setStatus]
          · right
            rw [(send_proj o _).2.1]
            exact ⟨_, rfl⟩
        · rw [if_neg hexec]
          exact ⟨by simp [setStatus], .inl rfl⟩

/-- Witness for C1 (amended) at the concrete source `x`. -/
theorem c1_witness :
    ((!(("def").data.isPrefixOf (pyStrip eC1.input_transform.data))
        || !pySubstr (pyStrip eC1.input_transform.data) ("return").data)
        = true)
      ∧ (malformedMsg
            ∈ (get_from_input_and_set_transform oracleBase 1 eC1).status_log
          ∧ ((get_from_input_and_set_transform oracleBase 1
                eC1).func_transform = some PyFun.identity
              ∨ ∃ src, (get_from_input_and_set_transform oracleBase 1
                  eC1).func_transform = some (PyFun.compiled src))) :=
  ⟨by decide, c1_malformed_source_compile oracleBase 1 eC1 (by decide)⟩

/-- C1 counterexample: the claim says such a source compiles to an
error-surfacing fallback that renders the triggering error's description
instead of the input.  On source `x` the installed fallback is the identity
`lambda x: x`, and applying it through `set_text` renders the input
unchanged (`hello`), not an error description. -/
theorem c1_counterexample :
    (get_from_input_and_set_transform oracleBase 1 eC1).func_transform
        = some PyFun.identity
      ∧ (Display.set_text oracleBase dIdentity ("hello")).label = "hello" := by
  exact ⟨by decide, by decide⟩

/-! ## C8: the CLEAN_TEXT collapse -/

lemma cleanGo_eq_collapseRunsBy :
    ∀ l : List Char, cleanGo false l = collapseRunsBy cleanChar l
      ∧ ∀ c, cleanChar c = true →
          '\n' :: cleanGo true l = collapseRunsBy cleanChar (c :: l) := by
  intro l
  induction l with
  | nil =>
      refine ⟨rfl, fun c hc => ?_⟩
      dsimp [cleanGo, collapseRunsBy]
      rw [if_pos hc]
  | cons d cs ih =>
      obtain ⟨ih1, ih2⟩ := ih
      constructor
      · by_cases hd : cleanChar d = true
        · dsimp [cleanGo]
          rw [if_pos hd]
          exact ih2 d hd
        · dsimp [cleanGo, collapseRunsBy]
          rw [if_neg hd, if_neg hd]
          exact congrArg (d :: ·) ih1
      · intro c hc
        by_cases hd : cleanChar d = true
        · dsimp [cleanGo, collapseRunsBy]
          rw [if_pos hd, if_pos hc, if_pos hd]
          exact ih2 d hd
        · dsimp [cleanGo, collapseRunsBy]
          rw [if_pos hc, if_neg hd, if_neg hd, if_neg hd]
          exact congrArg (fun x => '\n' :: d :: x) ih1

lemma cleanSub_eq (s : String) :
    cleanSub s = String.mk (collapseRunsBy cleanChar s.data) :=
  congrArg String.mk (cleanGo_eq_collapseRunsBy s.data).1

/-- C8 (amended): rendering in CLEAN_TEXT mode (output option 1, no
transform installed) parses the fragment, extracts its text content, and
collapses every maximal run of characters from the set
(space, newline, literal pipe) — the class of the pattern used in the code,
where the pipe is a literal — to a single newline, changing no other
characters (in particular tabs are not collapsed). -/
theorem c8_clean_text_collapse (o : Oracles) (d : Display) (html : String)
    (h1 : d.output_option = 1) (hf : d.func_transform = none) :
    (d.set_text o html).label
      = String.mk (collapseRunsBy cleanChar
          ((o.parse html).textContent).data) := by
  unfold Display.set_text renderPhase
  rw [h1, if_neg (by decide : ¬((1 : Nat) = 0)), if_pos (rfl : (1 : Nat) = 1)]
  unfold transformPhase
  dsimp only
  rw [hf]
  exact cleanSub_eq _

/-- Witness for C8 (amended) at the concrete fragment `a b`. -/
theorem c8_witness :
    (Display.set_text oracleBase dClean ("a b")).label
      = String.mk (collapseRunsBy cleanChar
          ((oracleBase.parse ("a b")).textContent).data) :=
  c8_clean_text_collapse oracleBase dClean ("a b") (by rfl) (by rfl)

/-- C8 counterexample: the claim says CLEAN_TEXT collapses exactly the runs
of whitespace/newline characters and changes nothing else.  On fragment
`a|b` the code yields `a` newline `b` (the pattern's character class
contains a literal pipe), while the claim predicts the pipe untouched; on
fragment `a` tab `b` the code leaves the tab (tabs are not in the class),
while the claim predicts it collapsed to a newline. -/
theorem c8_counterexample :
    (Display.set_text oracleBase dClean ("a|b")).label = "a\nb"
      ∧ cleanSpecWs ("a|b") = "a|b"
      ∧ (Display.set_text oracleBase dClean ("a\tb")).label = "a\tb"
      ∧ cleanSpecWs ("a\tb") = "a\nb" := by
  refine ⟨?_, ?_, ?_, ?_⟩ <;> decide

/-! ## C2: the configuration round trip -/

lemma send_to_display_id (o : Oracles) (e : Entity)
    (h : e.status_code ≠ 200) : send_to_display o e = e := by
  unfold send_to_display
  rw [if_pos h]

/-- On a fresh entity, `from_config` reduces to: load the six fields, run
the fetch, and re-enable the transform only if `is_with_transform` survived
the fetch.  (The `textChanged` re-render fires on a non-fetched entity and
is a no-op; the `setPlainText` handler is not connected on a fresh
entity.) -/
lemma from_config_init (o : Oracles) (eid : Nat) (cfg : Config) :
    from_config o eid initEntity cfg
      = (if (requests_get o eid (cfgEntity cfg)).is_with_transform = true then
           enable_transform o eid
             { requests_get o eid (cfgEntity cfg) with
                 btn_transform_checked := true } true
         else requests_get o eid (cfgEntity cfg)) := by
  obtain ⟨u, fl, css, oo, iwt, tr⟩ := cfg
  unfold from_config cfgEntity
  dsimp only
  by_cases hne : fl ≠ initEntity.input_filter
  · rw [if_pos hne, send_to_display_id]
    · rfl
    · show (-1 : Int) ≠ 200
      decide
  · rw [not_ne_iff] at hne
    subst hne
    rw [if_neg (show ¬(initEntity.input_filter ≠ initEntity.input_filter)
      from fun h => h rfl)]
    rfl

/-- The tail of the round trip when the automatic fetch fails with status
message `msg` (invalid URL, transport error, or non-200): every loaded field
survives, and `is_with_transform` survives as loaded. -/
lemma c2_fail_case (o : Oracles) (eid : Nat) (e : Entity) (msg : String) :
    ((if (setStatus (cfgEntity (to_config e)) msg).is_with_transform = true
       then enable_transform o eid
         { setStatus (cfgEntity (to_config e)) msg with
             btn_transform_checked := true } true
       else setStatus (cfgEntity (to_config e)) msg)).input_url = e.input_url
    ∧ ((if (setStatus (cfgEntity (to_config e)) msg).is_with_transform = true
       then enable_transform o eid
         { setStatus (cfgEntity (to_config e)) msg with
             btn_transform_checked := true } true
       else setStatus (cfgEntity (to_config e)) msg)).input_filter
        = e.input_filter
    ∧ ((if (setStatus (cfgEntity (to_config e)) msg).is_with_transform = true
       then enable_transform o eid
         { setStatus (cfgEntity (to_config e)) msg with
             btn_transform_checked := true } true
       else setStatus (cfgEntity (to_config e)) msg)).is_with_css
        = e.is_with_css
    ∧ ((if (setStatus (cfgEntity (to_config e)) msg).is_with_transform = true
       then enable_transform o eid
         { setStatus (cfgEntity (to_config e)) msg with
             btn_transform_checked := true } true
       else setStatus (cfgEntity (to_config e)) msg)).display.output_option
        = e.display.output_option
    ∧ ((if (setStatus (cfgEntity (to_config e)) msg).is_with_transform = true
       then enable_transform o eid
         { setStatus (cfgEntity (to_config e)) msg with
             btn_transform_checked := true } true
       else setStatus (cfgEntity (to_config e)) msg)).input_transform
        = (if e.func_transform.isSome then e.input_transform else (""))
    ∧ (e.is_with_transform = false →
        ((if (setStatus (cfgEntity (to_config e)) msg).is_with_transform
            = true
          then enable_transform o eid
            { setStatus (cfgEntity (to_config e)) msg with
                btn_transform_checked := true } true
          else setStatus (cfgEntity (to_config e)) msg)).is_with_transform
          = false)
    ∧ (e.is_with_transform = true →
        ((if (setStatus (cfgEntity (to_config e)) msg).is_with_transform
            = true
          then enable_transform o eid
            { setStatus (cfgEntity (to_config e)) msg with
                btn_transform_checked := true } true
          else setStatus (cfgEntity (to_config e)) msg)).is_with_transform
          = true) := by
  unfold cfgEntity to_config
  dsimp only [setStatus]
  cases hiw : e.is_with_transform with
  | false =>
      rw [if_neg (by decide : ¬(false = true))]
      exact ⟨rfl, rfl, rfl, rfl, rfl, fun _ => rfl,
        fun h1 => absurd h1 (by decide)⟩
  | true =>
      rw [if_pos rfl, enable_true_eq]
      refine ⟨?_, ?_, ?_, ?_, ?_, ?_, ?_⟩
      · dsimp only [setStatus]
        rw [(get_from_proj o eid _).2.1]
      · dsimp only [setStatus]
        rw [(get_from_proj o eid _).2.2.1]
      · dsimp only [setStatus]
        rw [(get_from_proj o eid _).2.2.2.1]
      · dsimp only [setStatus]
        rw [(get_from_proj o eid _).2.2.2.2.1]
      · dsimp only [setStatus]
        rw [(get_from_proj o eid _).2.2.2.2.2.1]
      · intro h1; exact absurd h1 (by decide)
      · intro _
        dsimp only [setStatus]
        rw [(get_from_proj o eid _).1]

/-- C2 (amended): serializing an entity's configuration with `to_config` and
loading it into a fresh entity with `from_config` reproduces `url`,
`filter`, the filter mode and the output mode unconditionally.  The
transform source is reproduced only when a compiled transform is installed
at save time; otherwise (in particular whenever the transform is disabled,
which forces `func_transform = none`) it is serialized as the empty string
and the source is lost.  `transform_enabled` is reproduced when it was false,
and when it was true provided the automatic fetch of `from_config` does not
complete with status 200 (a 200 fetch disables the transform and the
re-enable check then fails). -/
theorem c2_config_roundtrip (o : Oracles) (eid : Nat) (e : Entity) :
    (from_config o eid initEntity (to_config e)).input_url = e.input_url
      ∧ (from_config o eid initEntity (to_config e)).input_filter
          = e.input_filter
      ∧ (from_config o eid initEntity (to_config e)).is_with_css
          = e.is_with_css
      ∧ (from_config o eid initEntity (to_config e)).display.output_option
          = e.display.output_option
      ∧ (from_config o eid initEntity (to_config e)).input_transform
          = (if e.func_transform.isSome then e.input_transform else (""))
      ∧ (e.is_with_transform = false →
          (from_config o eid initEntity (to_config e)).is_with_transform
            = false)
      ∧ (e.is_with_transform = true → ¬ fetch200 o e.input_url →
          (from_config o eid initEntity (to_config e)).is_with_transform
            = true) := by
  rw [from_config_init]
  cases hu : reMatchStart URL_RE e.input_url.data with
  | false =>
      rw [requests_get_invalid o eid (cfgEntity (to_config e)) hu]
      obtain ⟨h1, h2, h3, h4, h5, h6, h7⟩ := c2_fail_case o eid e urlInvalidMsg
      exact ⟨h1, h2, h3, h4, h5, h6, fun ha _ => h7 ha⟩
  | true =>
      cases hfr : o.fetch e.input_url with
      | transportError m =>
          rw [requests_get_transport o eid (cfgEntity (to_config e)) m hu hfr]
          obtain ⟨h1, h2, h3, h4, h5, h6, h7⟩ := c2_fail_case o eid e m
          exact ⟨h1, h2, h3, h4, h5, h6, fun ha _ => h7 ha⟩
      | response code body =>
          by_cases h200 : code = 200
          · subst h200
            rw [requests_get_200 o eid (cfgEntity (to_config e)) body hu hfr]
            dsimp only [setStatus]
            rw [(send_proj o _).1, enable_false_eq]
            dsimp only [setStatus]
            rw [if_neg (by decide : ¬(false = true))]
            refine ⟨?_, ?_, ?_, ?_, ?_, fun _ => ?_,
              fun _ h2 => absurd ⟨hu, body, hfr⟩ h2⟩
            · rw [(send_proj o _).2.2.2.2.1]; rfl
            · rw [(send_proj o _).2.2.2.2.2.1]; rfl
            · rw [(send_proj o _).2.2.2.2.2.2.1]; rfl
            · rw [(send_proj o _).2.2.2.2.2.2.2.1]; rfl
            · rw [(send_proj o _).2.2.2.2.2.2.2.2.1]; rfl
            · dsimp only
          · rw [requests_get_non200 o eid (cfgEntity (to_config e)) code body
              hu hfr h200]
            obtain ⟨h1, h2, h3, h4, h5, h6, h7⟩ := c2_fail_case o eid e
              ("<Response [" ++ toString code ++ "]>")
            exact ⟨h1, h2, h3, h4, h5, h6, fun ha _ => h7 ha⟩

/-- Witness for C2 (amended) at the concrete entity `eC2`, discharging the
`transform_enabled = false` premise there. -/
theorem c2_witness :
    (from_config oracleBase 1 initEntity (to_config eC2)).input_url
        = eC2.input_url
      ∧ (from_config oracleBase 1 initEntity
          (to_config eC2)).is_with_transform = false :=
  ⟨(c2_config_roundtrip oracleBase 1 eC2).1,
   (c2_config_roundtrip oracleBase 1 eC2).2.2.2.2.2.1 rfl⟩

/-- C2 counterexample: the claim says a non-empty transform source is
preserved across the round trip even when the transform is disabled.  On
`eC2` (disabled transform, hence `func_transform = none`, with a non-empty
source) `to_config` serializes `transform` as the empty string and the
reloaded entity's transform source is empty, unlike the original. -/
theorem c2_counterexample :
    (to_config eC2).transform = ""
      ∧ (from_config oracleBase 1 initEntity (to_config eC2)).input_transform
          = ""
      ∧ eC2.input_transform ≠ "" := by
  refine ⟨by decide, ?_, by decide⟩
  decide
